import Mathlib

/-!
Shallow embedding of the sensor domain model of `simple_app`
(`src/server/libs/domain` and `src/server/libs/infrastructure`).

Modelling conventions:
* Rust `f64` sensor values are modelled as `Rat`: every bound in the code
  (`-50.0`, `150.0`, `0.0`, `100.0`, `50000.0`) is an exactly representable
  decimal and the validation logic only performs order comparisons.
* `chrono::DateTime<Utc>` is modelled as `Int` (instants under a total
  order); `Utc::now()` read inside a constructor becomes an explicit
  `now` parameter of the embedded constructor.
* `Result<T, SensorValidationError>` becomes `Except SensorValidationError T`.
* `std::collections::HashMap` is modelled as an association list without
  duplicate keys in which insertion replaces the value at an existing key,
  matching `HashMap::insert`'s observable lookup behaviour.
-/

/-- `SensorValidationError` from `src/server/libs/domain/src/sensors/error.rs`. -/
inductive SensorValidationError where
  | EmptyDeviceId : SensorValidationError
  | FutureTimestamp : SensorValidationError
  | ValueOutOfRange (value min max : Rat) : SensorValidationError
  | InvalidUnit (raw : String) : SensorValidationError
deriving DecidableEq, Repr

/-- `TemperatureUnit` from `temperature.rs`. -/
inductive TemperatureUnit where
  | Celsius : TemperatureUnit
  | Fahrenheit : TemperatureUnit
deriving DecidableEq, Repr

/-- `TemperatureUnit::as_str`. -/
def TemperatureUnit.as_str : TemperatureUnit → String
  | .Celsius => "Celsius"
  | .Fahrenheit => "Fahrenheit"

/-- `str::to_lowercase` as used by the unit parsers: character-wise
lowercasing, which agrees with Rust's `to_lowercase` on the ASCII alias
vocabulary the parsers match against. -/
def toLowerStr (s : String) : String := ⟨s.data.map Char.toLower⟩

/-- `TryFrom<&str> for TemperatureUnit`: lowercases the input and matches
the alias set, otherwise `InvalidUnit` carrying the original input. -/
def TemperatureUnit.try_from (value : String) : Except SensorValidationError TemperatureUnit :=
  if toLowerStr value = "celsius" ∨ toLowerStr value = "c" then .ok .Celsius
  else if toLowerStr value = "fahrenheit" ∨ toLowerStr value = "f" then .ok .Fahrenheit
  else .error (.InvalidUnit value)

/-- `HumidityUnit` from `humidity.rs`. -/
inductive HumidityUnit where
  | Percent : HumidityUnit
deriving DecidableEq, Repr

/-- `HumidityUnit::as_str`. -/
def HumidityUnit.as_str : HumidityUnit → String
  | .Percent => "Percent"

/-- `TryFrom<&str> for HumidityUnit`. -/
def HumidityUnit.try_from (value : String) : Except SensorValidationError HumidityUnit :=
  if toLowerStr value = "percent" ∨ toLowerStr value = "%" then .ok .Percent
  else .error (.InvalidUnit value)

/-- `CO2Unit` from `co2.rs`. -/
inductive CO2Unit where
  | Ppm : CO2Unit
deriving DecidableEq, Repr

/-- `CO2Unit::as_str`. -/
def CO2Unit.as_str : CO2Unit → String
  | .Ppm => "ppm"

/-- `TryFrom<&str> for CO2Unit`. -/
def CO2Unit.try_from (value : String) : Except SensorValidationError CO2Unit :=
  if toLowerStr value = "ppm" then .ok .Ppm
  else .error (.InvalidUnit value)

/-- `MIN_VALUE` of `temperature.rs`. -/
def Temperature.MIN_VALUE : Rat := -50

/-- `MAX_VALUE` of `temperature.rs`. -/
def Temperature.MAX_VALUE : Rat := 150

/-- `MIN_VALUE` of `humidity.rs`. -/
def Humidity.MIN_VALUE : Rat := 0

/-- `MAX_VALUE` of `humidity.rs`. -/
def Humidity.MAX_VALUE : Rat := 100

/-- `MIN_VALUE` of `co2.rs`. -/
def CO2.MIN_VALUE : Rat := 0

/-- `MAX_VALUE` of `co2.rs`. -/
def CO2.MAX_VALUE : Rat := 50000

/-- `TemperatureSensor` struct from `temperature.rs`. -/
structure TemperatureSensor where
  device_id : String
  timestamp : Int
  value : Rat
  unit : TemperatureUnit
deriving DecidableEq, Repr

/-- `TemperatureSensor::new`: empty-device-id check, then future-timestamp
check against `now` (the value of `Utc::now()` at the call), then inclusive
range check. -/
def TemperatureSensor.new (device_id : String) (timestamp : Int) (value : Rat)
    (unit : TemperatureUnit) (now : Int) :
    Except SensorValidationError TemperatureSensor :=
  if device_id.isEmpty then .error .EmptyDeviceId
  else if timestamp > now then .error .FutureTimestamp
  else if ¬ (Temperature.MIN_VALUE ≤ value ∧ value ≤ Temperature.MAX_VALUE) then
    .error (.ValueOutOfRange value Temperature.MIN_VALUE Temperature.MAX_VALUE)
  else .ok { device_id, timestamp, value, unit }

/-- `HumiditySensor` struct from `humidity.rs`. -/
structure HumiditySensor where
  device_id : String
  timestamp : Int
  value : Rat
  unit : HumidityUnit
deriving DecidableEq, Repr

/-- `HumiditySensor::new`. -/
def HumiditySensor.new (device_id : String) (timestamp : Int) (value : Rat)
    (unit : HumidityUnit) (now : Int) :
    Except SensorValidationError HumiditySensor :=
  if device_id.isEmpty then .error .EmptyDeviceId
  else if timestamp > now then .error .FutureTimestamp
  else if ¬ (Humidity.MIN_VALUE ≤ value ∧ value ≤ Humidity.MAX_VALUE) then
    .error (.ValueOutOfRange value Humidity.MIN_VALUE Humidity.MAX_VALUE)
  else .ok { device_id, timestamp, value, unit }

/-- `CO2Sensor` struct from `co2.rs`. -/
structure CO2Sensor where
  device_id : String
  timestamp : Int
  value : Rat
  unit : CO2Unit
deriving DecidableEq, Repr

/-- `CO2Sensor::new`. -/
def CO2Sensor.new (device_id : String) (timestamp : Int) (value : Rat)
    (unit : CO2Unit) (now : Int) :
    Except SensorValidationError CO2Sensor :=
  if device_id.isEmpty then .error .EmptyDeviceId
  else if timestamp > now then .error .FutureTimestamp
  else if ¬ (CO2.MIN_VALUE ≤ value ∧ value ≤ CO2.MAX_VALUE) then
    .error (.ValueOutOfRange value CO2.MIN_VALUE CO2.MAX_VALUE)
  else .ok { device_id, timestamp, value, unit }

/-- `Sensor` trait impl for `TemperatureSensor` (`sensor.rs`): `device_id`. -/
def Sensor.temperature_device_id (s : TemperatureSensor) : String := s.device_id

/-- `Sensor` trait impl for `TemperatureSensor`: `timestamp`. -/
def Sensor.temperature_timestamp (s : TemperatureSensor) : Int := s.timestamp

/-- `Sensor` trait impl for `TemperatureSensor`: `value`. -/
def Sensor.temperature_value (s : TemperatureSensor) : Rat := s.value

/-- `Sensor` trait impl for `TemperatureSensor`: `unit`, delegating to `as_str`. -/
def Sensor.temperature_unit (s : TemperatureSensor) : String := s.unit.as_str

/-- `Sensor` trait impl for `HumiditySensor`: `device_id`. -/
def Sensor.humidity_device_id (s : HumiditySensor) : String := s.device_id

/-- `Sensor` trait impl for `HumiditySensor`: `timestamp`. -/
def Sensor.humidity_timestamp (s : HumiditySensor) : Int := s.timestamp

/-- `Sensor` trait impl for `HumiditySensor`: `value`. -/
def Sensor.humidity_value (s : HumiditySensor) : Rat := s.value

/-- `Sensor` trait impl for `HumiditySensor`: `unit`, delegating to `as_str`. -/
def Sensor.humidity_unit (s : HumiditySensor) : String := s.unit.as_str

/-- `Sensor` trait impl for `CO2Sensor`: `device_id`. -/
def Sensor.co2_device_id (s : CO2Sensor) : String := s.device_id

/-- `Sensor` trait impl for `CO2Sensor`: `timestamp`. -/
def Sensor.co2_timestamp (s : CO2Sensor) : Int := s.timestamp

/-- `Sensor` trait impl for `CO2Sensor`: `value`. -/
def Sensor.co2_value (s : CO2Sensor) : Rat := s.value

/-- `Sensor` trait impl for `CO2Sensor`: `unit`, delegating to `as_str`. -/
def Sensor.co2_unit (s : CO2Sensor) : String := s.unit.as_str

/-- `SensorMeasurement` from `entities/sensor_data.rs`: an unvalidated pair
of a numeric value and a free-text unit label. -/
structure SensorMeasurement where
  value : Rat
  unit : String
deriving DecidableEq, Repr

/-- `HashMap::insert` on the association-list model: replaces the value at
an existing key, otherwise appends the new binding. -/
def mapInsert (name : String) (m : SensorMeasurement) :
    List (String × SensorMeasurement) → List (String × SensorMeasurement)
  | [] => [(name, m)]
  | (k, v) :: rest =>
      if k = name then (name, m) :: rest else (k, v) :: mapInsert name m rest

/-- `HashMap::get` on the association-list model. -/
def mapLookup (name : String) :
    List (String × SensorMeasurement) → Option SensorMeasurement
  | [] => none
  | (k, v) :: rest => if k = name then some v else mapLookup name rest

/-- `SensorData` from `entities/sensor_data.rs`: the aggregate record. -/
structure SensorData where
  device_id : String
  timestamp : Int
  temperature : Option SensorMeasurement
  humidity : Option SensorMeasurement
  co2 : Option SensorMeasurement
  additional_sensors : List (String × SensorMeasurement)
deriving DecidableEq, Repr

/-- `SensorData::new`: no validation, empty slots and map. -/
def SensorData.new (device_id : String) (timestamp : Int) : SensorData :=
  { device_id, timestamp, temperature := none, humidity := none, co2 := none,
    additional_sensors := [] }

/-- `SensorData::with_temperature`. -/
def SensorData.with_temperature (self : SensorData) (value : Rat) (unit : String) :
    SensorData :=
  { self with temperature := some { value, unit } }

/-- `SensorData::with_humidity`. -/
def SensorData.with_humidity (self : SensorData) (value : Rat) (unit : String) :
    SensorData :=
  { self with humidity := some { value, unit } }

/-- `SensorData::with_co2`. -/
def SensorData.with_co2 (self : SensorData) (value : Rat) (unit : String) :
    SensorData :=
  { self with co2 := some { value, unit } }

/-- `SensorData::with_additional_sensor`. -/
def SensorData.with_additional_sensor (self : SensorData) (name : String)
    (value : Rat) (unit : String) : SensorData :=
  { self with additional_sensors :=
      mapInsert name { value, unit } self.additional_sensors }

/-- `mongodb::bson::oid::ObjectId`, modelled abstractly: the mapping from
`SensorData` never produces one, so only its presence/absence matters. -/
structure ObjectId where
  val : Nat
deriving DecidableEq, Repr

/-- Persistence-side `SensorMeasurement` from `infrastructure/src/persistence/models.rs`. -/
structure DocSensorMeasurement where
  value : Rat
  unit : String
deriving DecidableEq, Repr

/-- `From<&DomainMeasurement> for SensorMeasurement` (`models.rs`). -/
def DocSensorMeasurement.from_domain (m : SensorMeasurement) : DocSensorMeasurement :=
  { value := m.value, unit := m.unit }

/-- `From<SensorMeasurement> for DomainMeasurement` (`models.rs`). -/
def SensorMeasurement.from_doc (m : DocSensorMeasurement) : SensorMeasurement :=
  { value := m.value, unit := m.unit }

/-- `SensorDataDocument` from `models.rs`. -/
structure SensorDataDocument where
  id : Option ObjectId
  device_id : String
  timestamp : Int
  temperature : Option DocSensorMeasurement
  humidity : Option DocSensorMeasurement
  co2 : Option DocSensorMeasurement
  additional_sensors : List (String × DocSensorMeasurement)
deriving DecidableEq, Repr

/-- `From<&SensorData> for SensorDataDocument` (`models.rs`). -/
def SensorDataDocument.from_data (data : SensorData) : SensorDataDocument :=
  { id := none,
    device_id := data.device_id,
    timestamp := data.timestamp,
    temperature := data.temperature.map DocSensorMeasurement.from_domain,
    humidity := data.humidity.map DocSensorMeasurement.from_domain,
    co2 := data.co2.map DocSensorMeasurement.from_domain,
    additional_sensors :=
      data.additional_sensors.map fun p => (p.1, DocSensorMeasurement.from_domain p.2) }

/-- `From<SensorDataDocument> for SensorData` (`models.rs`). -/
def SensorData.from_document (doc : SensorDataDocument) : SensorData :=
  { device_id := doc.device_id,
    timestamp := doc.timestamp,
    temperature := doc.temperature.map SensorMeasurement.from_doc,
    humidity := doc.humidity.map SensorMeasurement.from_doc,
    co2 := doc.co2.map SensorMeasurement.from_doc,
    additional_sensors :=
      doc.additional_sensors.map fun p => (p.1, SensorMeasurement.from_doc p.2) }

/-- Lookup after insert: the inserted key maps to the new measurement and
every other key is untouched. -/
theorem mapLookup_mapInsert (k n : String) (m : SensorMeasurement)
    (l : List (String × SensorMeasurement)) :
    mapLookup k (mapInsert n m l) =
      if k = n then some m else mapLookup k l := by
  induction l with
  | nil =>
      simp only [mapInsert, mapLookup]
      split_ifs with h1 h2 <;> simp_all [eq_comm]
  | cons p rest ih =>
      obtain ⟨a, b⟩ := p
      simp only [mapInsert]
      split_ifs with h1 <;> simp_all [mapLookup, eq_comm]

/-- A `ValueOutOfRange` result from `TemperatureSensor::new` implies the two
earlier checks passed. -/
theorem temperature_range_error_after_checks (d : String) (ts : Int) (v : Rat)
    (tu : TemperatureUnit) (now : Int) (x mn mx : Rat) :
    TemperatureSensor.new d ts v tu now = .error (.ValueOutOfRange x mn mx) →
    d ≠ "" ∧ ts ≤ now := by
  intro h
  simp only [TemperatureSensor.new] at h
  split at h
  · simp at h
  · split at h
    · simp at h
    · rename_i hde hts
      rw [String.isEmpty_iff] at hde
      exact ⟨hde, by omega⟩

/-- A `ValueOutOfRange` result from `HumiditySensor::new` implies the two
earlier checks passed. -/
theorem humidity_range_error_after_checks (d : String) (ts : Int) (v : Rat)
    (hu : HumidityUnit) (now : Int) (x mn mx : Rat) :
    HumiditySensor.new d ts v hu now = .error (.ValueOutOfRange x mn mx) →
    d ≠ "" ∧ ts ≤ now := by
  intro h
  simp only [HumiditySensor.new] at h
  split at h
  · simp at h
  · split at h
    · simp at h
    · rename_i hde hts
      rw [String.isEmpty_iff] at hde
      exact ⟨hde, by omega⟩

/-- A `ValueOutOfRange` result from `CO2Sensor::new` implies the two earlier
checks passed. -/
theorem co2_range_error_after_checks (d : String) (ts : Int) (v : Rat)
    (cu : CO2Unit) (now : Int) (x mn mx : Rat) :
    CO2Sensor.new d ts v cu now = .error (.ValueOutOfRange x mn mx) →
    d ≠ "" ∧ ts ≤ now := by
  intro h
  simp only [CO2Sensor.new] at h
  split at h
  · simp at h
  · split at h
    · simp at h
    · rename_i hde hts
      rw [String.isEmpty_iff] at hde
      exact ⟨hde, by omega⟩

/-- C1: for each of the three sensor kinds the validating constructor checks
in a fixed short-circuit order: an empty device id yields `EmptyDeviceId`
regardless of timestamp and value; a non-empty device id with a timestamp
after `now` yields `FutureTimestamp` regardless of value; and a
`ValueOutOfRange` result can only arise when the device id is non-empty and
the timestamp is not after `now`. -/
theorem validation_short_circuit_order
    (d : String) (ts : Int) (v : Rat) (now : Int)
    (tu : TemperatureUnit) (hu : HumidityUnit) (cu : CO2Unit) :
    (d = "" →
      TemperatureSensor.new d ts v tu now = .error .EmptyDeviceId ∧
      HumiditySensor.new d ts v hu now = .error .EmptyDeviceId ∧
      CO2Sensor.new d ts v cu now = .error .EmptyDeviceId) ∧
    (d ≠ "" → now < ts →
      TemperatureSensor.new d ts v tu now = .error .FutureTimestamp ∧
      HumiditySensor.new d ts v hu now = .error .FutureTimestamp ∧
      CO2Sensor.new d ts v cu now = .error .FutureTimestamp) ∧
    (∀ x mn mx,
      (TemperatureSensor.new d ts v tu now = .error (.ValueOutOfRange x mn mx) ∨
       HumiditySensor.new d ts v hu now = .error (.ValueOutOfRange x mn mx) ∨
       CO2Sensor.new d ts v cu now = .error (.ValueOutOfRange x mn mx)) →
      d ≠ "" ∧ ts ≤ now) := by
  refine ⟨?_, ?_, ?_⟩
  · intro hd
    subst hd
    exact ⟨rfl, rfl, rfl⟩
  · intro hd hlt
    have hde : ¬ (String.isEmpty d = true) := by
      simpa [String.isEmpty_iff] using hd
    refine ⟨?_, ?_, ?_⟩ <;>
      simp [TemperatureSensor.new, HumiditySensor.new, CO2Sensor.new, hde, hlt]
  · intro x mn mx h
    rcases h with h | h | h
    · exact temperature_range_error_after_checks d ts v tu now x mn mx h
    · exact humidity_range_error_after_checks d ts v hu now x mn mx h
    · exact co2_range_error_after_checks d ts v cu now x mn mx h

/-- C1 witness: with an empty device id, a future timestamp and an
out-of-range value, construction still yields `EmptyDeviceId`. -/
theorem validation_short_circuit_order_witness :
    TemperatureSensor.new "" 10 999 .Celsius 0 = .error .EmptyDeviceId :=
  ((validation_short_circuit_order "" 10 999 0 .Celsius .Percent .Ppm).1 rfl).1

/-- C2: with a non-empty device id and a non-future timestamp, construction
succeeds for every value inside the kind's inclusive range and fails with
`ValueOutOfRange` carrying the offending value and the kind's exact bounds
for every value outside it, for all three sensor kinds. -/
theorem range_check_inclusive_bounds
    (d : String) (ts now : Int) (v : Rat)
    (tu : TemperatureUnit) (hu : HumidityUnit) (cu : CO2Unit)
    (hd : d ≠ "") (hts : ts ≤ now) :
    (Temperature.MIN_VALUE ≤ v ∧ v ≤ Temperature.MAX_VALUE →
      TemperatureSensor.new d ts v tu now = .ok ⟨d, ts, v, tu⟩) ∧
    (v < Temperature.MIN_VALUE ∨ Temperature.MAX_VALUE < v →
      TemperatureSensor.new d ts v tu now =
        .error (.ValueOutOfRange v Temperature.MIN_VALUE Temperature.MAX_VALUE)) ∧
    (Humidity.MIN_VALUE ≤ v ∧ v ≤ Humidity.MAX_VALUE →
      HumiditySensor.new d ts v hu now = .ok ⟨d, ts, v, hu⟩) ∧
    (v < Humidity.MIN_VALUE ∨ Humidity.MAX_VALUE < v →
      HumiditySensor.new d ts v hu now =
        .error (.ValueOutOfRange v Humidity.MIN_VALUE Humidity.MAX_VALUE)) ∧
    (CO2.MIN_VALUE ≤ v ∧ v ≤ CO2.MAX_VALUE →
      CO2Sensor.new d ts v cu now = .ok ⟨d, ts, v, cu⟩) ∧
    (v < CO2.MIN_VALUE ∨ CO2.MAX_VALUE < v →
      CO2Sensor.new d ts v cu now =
        .error (.ValueOutOfRange v CO2.MIN_VALUE CO2.MAX_VALUE)) := by
  have hde : ¬ (String.isEmpty d = true) := by
    simpa [String.isEmpty_iff] using hd
  have hnlt : ¬ ts > now := by omega
  refine ⟨?_, ?_, ?_, ?_, ?_, ?_⟩
  · intro hv
    simp [TemperatureSensor.new, hde, hnlt, hv.1, hv.2]
  · intro hv
    have : ¬ (Temperature.MIN_VALUE ≤ v ∧ v ≤ Temperature.MAX_VALUE) := by
      rcases hv with hv | hv
      · exact fun hc => absurd hv (not_lt.mpr hc.1)
      · exact fun hc => absurd hv (not_lt.mpr hc.2)
    simp [TemperatureSensor.new, hde, hnlt, this]
  · intro hv
    simp [HumiditySensor.new, hde, hnlt, hv.1, hv.2]
  · intro hv
    have : ¬ (Humidity.MIN_VALUE ≤ v ∧ v ≤ Humidity.MAX_VALUE) := by
      rcases hv with hv | hv
      · exact fun hc => absurd hv (not_lt.mpr hc.1)
      · exact fun hc => absurd hv (not_lt.mpr hc.2)
    simp [HumiditySensor.new, hde, hnlt, this]
  · intro hv
    simp [CO2Sensor.new, hde, hnlt, hv.1, hv.2]
  · intro hv
    have : ¬ (CO2.MIN_VALUE ≤ v ∧ v ≤ CO2.MAX_VALUE) := by
      rcases hv with hv | hv
      · exact fun hc => absurd hv (not_lt.mpr hc.1)
      · exact fun hc => absurd hv (not_lt.mpr hc.2)
    simp [CO2Sensor.new, hde, hnlt, this]

/-- C2 witness: boundary value 150 succeeds for Temperature and 151 fails
with `ValueOutOfRange 151 (-50) 150`, at device id "dev" and timestamp 0
with now 0. -/
theorem range_check_inclusive_bounds_witness :
    TemperatureSensor.new "dev" 0 150 .Celsius 0 = .ok ⟨"dev", 0, 150, .Celsius⟩ ∧
    TemperatureSensor.new "dev" 0 151 .Celsius 0 =
      .error (.ValueOutOfRange 151 Temperature.MIN_VALUE Temperature.MAX_VALUE) :=
  ⟨(range_check_inclusive_bounds "dev" 0 0 150 .Celsius .Percent .Ppm
      (by decide) (by decide)).1
    (by norm_num [Temperature.MIN_VALUE, Temperature.MAX_VALUE]),
   (range_check_inclusive_bounds "dev" 0 0 151 .Celsius .Percent .Ppm
      (by decide) (by decide)).2.1
    (Or.inr (by norm_num [Temperature.MAX_VALUE]))⟩

/-- C3: unit parsing is case-insensitive and alias-complete per kind. A
string is a case variant of an alias exactly when its lowercasing equals
that (lowercase) alias; every such variant parses to the alias's unit, and
every other text fails with `InvalidUnit` carrying the original input. -/
theorem unit_parse_case_insensitive (s : String) :
    (toLowerStr s = "celsius" ∨ toLowerStr s = "c" →
      TemperatureUnit.try_from s = .ok .Celsius) ∧
    (toLowerStr s = "fahrenheit" ∨ toLowerStr s = "f" →
      TemperatureUnit.try_from s = .ok .Fahrenheit) ∧
    (¬ (toLowerStr s = "celsius" ∨ toLowerStr s = "c") →
      ¬ (toLowerStr s = "fahrenheit" ∨ toLowerStr s = "f") →
      TemperatureUnit.try_from s = .error (.InvalidUnit s)) ∧
    (toLowerStr s = "percent" ∨ toLowerStr s = "%" →
      HumidityUnit.try_from s = .ok .Percent) ∧
    (¬ (toLowerStr s = "percent" ∨ toLowerStr s = "%") →
      HumidityUnit.try_from s = .error (.InvalidUnit s)) ∧
    (toLowerStr s = "ppm" → CO2Unit.try_from s = .ok .Ppm) ∧
    (toLowerStr s ≠ "ppm" → CO2Unit.try_from s = .error (.InvalidUnit s)) := by
  refine ⟨?_, ?_, ?_, ?_, ?_, ?_, ?_⟩
  · intro h
    unfold TemperatureUnit.try_from
    rw [if_pos h]
  · intro h
    unfold TemperatureUnit.try_from
    have hnc : ¬ (toLowerStr s = "celsius" ∨ toLowerStr s = "c") := by
      rcases h with h | h <;> rw [h] <;> decide
    rw [if_neg hnc, if_pos h]
  · intro h1 h2
    unfold TemperatureUnit.try_from
    rw [if_neg h1, if_neg h2]
  · intro h
    unfold HumidityUnit.try_from
    rw [if_pos h]
  · intro h
    unfold HumidityUnit.try_from
    rw [if_neg h]
  · intro h
    unfold CO2Unit.try_from
    rw [if_pos h]
  · intro h
    unfold CO2Unit.try_from
    rw [if_neg h]

/-- C3 witness: concrete case variants parse to the expected units and an
unknown unit text fails with `InvalidUnit` of the original text. -/
theorem unit_parse_case_insensitive_witness :
    TemperatureUnit.try_from "CeLsIuS" = .ok .Celsius ∧
    TemperatureUnit.try_from "F" = .ok .Fahrenheit ∧
    HumidityUnit.try_from "%" = .ok .Percent ∧
    CO2Unit.try_from "PPM" = .ok .Ppm ∧
    TemperatureUnit.try_from "kelvin" = .error (.InvalidUnit "kelvin") :=
  ⟨(unit_parse_case_insensitive "CeLsIuS").1 (Or.inl (by decide)),
   (unit_parse_case_insensitive "F").2.1 (Or.inr (by decide)),
   (unit_parse_case_insensitive "%").2.2.2.1 (Or.inr (by decide)),
   (unit_parse_case_insensitive "PPM").2.2.2.2.2.1 (by decide),
   (unit_parse_case_insensitive "kelvin").2.2.1 (by decide) (by decide)⟩

/-- C5: with a non-empty device id, construction fails with
`FutureTimestamp` exactly when the supplied timestamp is strictly after the
current time read at construction, for all three sensor kinds. -/
theorem future_timestamp_check_strict
    (d : String) (ts now : Int) (v : Rat)
    (tu : TemperatureUnit) (hu : HumidityUnit) (cu : CO2Unit)
    (hd : d ≠ "") :
    (TemperatureSensor.new d ts v tu now = .error .FutureTimestamp ↔ now < ts) ∧
    (HumiditySensor.new d ts v hu now = .error .FutureTimestamp ↔ now < ts) ∧
    (CO2Sensor.new d ts v cu now = .error .FutureTimestamp ↔ now < ts) := by
  have hde : ¬ (String.isEmpty d = true) := by
    simpa [String.isEmpty_iff] using hd
  refine ⟨⟨?_, ?_⟩, ⟨?_, ?_⟩, ⟨?_, ?_⟩⟩
  · intro h
    by_contra hnlt
    simp only [TemperatureSensor.new] at h
    rw [if_neg hde, if_neg hnlt] at h
    split at h <;> simp at h
  · intro hlt
    simp [TemperatureSensor.new, hde, hlt]
  · intro h
    by_contra hnlt
    simp only [HumiditySensor.new] at h
    rw [if_neg hde, if_neg hnlt] at h
    split at h <;> simp at h
  · intro hlt
    simp [HumiditySensor.new, hde, hlt]
  · intro h
    by_contra hnlt
    simp only [CO2Sensor.new] at h
    rw [if_neg hde, if_neg hnlt] at h
    split at h <;> simp at h
  · intro hlt
    simp [CO2Sensor.new, hde, hlt]

/-- C5 witness: a timestamp one tick after now fails with
`FutureTimestamp`, and an equal timestamp does not. -/
theorem future_timestamp_check_strict_witness :
    HumiditySensor.new "dev" 5 50 .Percent 4 = .error .FutureTimestamp ∧
    ¬ HumiditySensor.new "dev" 4 50 .Percent 4 = .error .FutureTimestamp :=
  ⟨((future_timestamp_check_strict "dev" 5 4 50 .Celsius .Percent .Ppm
      (by decide)).2.1).mpr (by decide),
   fun h =>
     absurd (((future_timestamp_check_strict "dev" 4 4 50 .Celsius .Percent .Ppm
       (by decide)).2.1).mp h) (by decide)⟩

/-- C4: whenever construction succeeds, the accessors of the returned
object return exactly the device id, timestamp, value and unit supplied to
the constructor, for all three sensor kinds. -/
theorem constructed_accessors_roundtrip
    (d : String) (ts : Int) (v : Rat) (now : Int)
    (tu : TemperatureUnit) (hu : HumidityUnit) (cu : CO2Unit) :
    (∀ s, TemperatureSensor.new d ts v tu now = .ok s →
      s.device_id = d ∧ s.timestamp = ts ∧ s.value = v ∧ s.unit = tu) ∧
    (∀ s, HumiditySensor.new d ts v hu now = .ok s →
      s.device_id = d ∧ s.timestamp = ts ∧ s.value = v ∧ s.unit = hu) ∧
    (∀ s, CO2Sensor.new d ts v cu now = .ok s →
      s.device_id = d ∧ s.timestamp = ts ∧ s.value = v ∧ s.unit = cu) := by
  refine ⟨?_, ?_, ?_⟩ <;> intro s h
  all_goals
    first
      | simp only [TemperatureSensor.new] at h
      | simp only [HumiditySensor.new] at h
      | simp only [CO2Sensor.new] at h
  all_goals
    split at h
    · simp at h
    · split at h
      · simp at h
      · split at h
        · simp at h
        · injection h with h2
          subst h2
          exact ⟨rfl, rfl, rfl, rfl⟩

/-- C4 witness: concrete successful construction round-trips all four
fields. -/
theorem constructed_accessors_roundtrip_witness :
    (TemperatureSensor.mk "x" 0 25 .Celsius).device_id = "x" ∧
    (TemperatureSensor.mk "x" 0 25 .Celsius).timestamp = 0 ∧
    (TemperatureSensor.mk "x" 0 25 .Celsius).value = 25 ∧
    (TemperatureSensor.mk "x" 0 25 .Celsius).unit = .Celsius :=
  (constructed_accessors_roundtrip "x" 0 25 0 .Celsius .Percent .Ppm).1
    ⟨"x", 0, 25, .Celsius⟩ (by rfl)

/-- C6: each `with` operation of the aggregate record sets only its own
slot to the supplied value and verbatim unit text, leaving the device id,
the timestamp, the other two built-in slots and the additional-sensors map
unchanged; `with_additional_sensor` inserts or overwrites exactly the named
map entry (last write wins) and leaves every other field and entry
unchanged. -/
theorem with_operations_frame
    (r : SensorData) (v v' : Rat) (u u' : String) (n k : String) :
    ((r.with_temperature v u).temperature = some ⟨v, u⟩ ∧
     (r.with_temperature v u).device_id = r.device_id ∧
     (r.with_temperature v u).timestamp = r.timestamp ∧
     (r.with_temperature v u).humidity = r.humidity ∧
     (r.with_temperature v u).co2 = r.co2 ∧
     (r.with_temperature v u).additional_sensors = r.additional_sensors) ∧
    ((r.with_humidity v u).humidity = some ⟨v, u⟩ ∧
     (r.with_humidity v u).device_id = r.device_id ∧
     (r.with_humidity v u).timestamp = r.timestamp ∧
     (r.with_humidity v u).temperature = r.temperature ∧
     (r.with_humidity v u).co2 = r.co2 ∧
     (r.with_humidity v u).additional_sensors = r.additional_sensors) ∧
    ((r.with_co2 v u).co2 = some ⟨v, u⟩ ∧
     (r.with_co2 v u).device_id = r.device_id ∧
     (r.with_co2 v u).timestamp = r.timestamp ∧
     (r.with_co2 v u).temperature = r.temperature ∧
     (r.with_co2 v u).humidity = r.humidity ∧
     (r.with_co2 v u).additional_sensors = r.additional_sensors) ∧
    ((r.with_additional_sensor n v u).device_id = r.device_id ∧
     (r.with_additional_sensor n v u).timestamp = r.timestamp ∧
     (r.with_additional_sensor n v u).temperature = r.temperature ∧
     (r.with_additional_sensor n v u).humidity = r.humidity ∧
     (r.with_additional_sensor n v u).co2 = r.co2 ∧
     mapLookup k (r.with_additional_sensor n v u).additional_sensors =
       (if k = n then some ⟨v, u⟩ else mapLookup k r.additional_sensors) ∧
     mapLookup n
       (((r.with_additional_sensor n v u).with_additional_sensor n v' u').additional_sensors) =
       some ⟨v', u'⟩) := by
  refine ⟨⟨rfl, rfl, rfl, rfl, rfl, rfl⟩, ⟨rfl, rfl, rfl, rfl, rfl, rfl⟩,
    ⟨rfl, rfl, rfl, rfl, rfl, rfl⟩, rfl, rfl, rfl, rfl, rfl, ?_, ?_⟩
  · exact mapLookup_mapInsert k n ⟨v, u⟩ r.additional_sensors
  · simp [SensorData.with_additional_sensor, mapLookup_mapInsert]

/-- C7: the aggregate record constructor performs no validation: for every
device id (the empty string included) and every timestamp (future ones
included) it returns a record holding the arguments, with all three
built-in slots absent and an empty additional-sensors map; its result type
carries no error case. -/
theorem aggregate_new_no_validation (d : String) (ts : Int) :
    (SensorData.new d ts).device_id = d ∧
    (SensorData.new d ts).timestamp = ts ∧
    (SensorData.new d ts).temperature = none ∧
    (SensorData.new d ts).humidity = none ∧
    (SensorData.new d ts).co2 = none ∧
    (SensorData.new d ts).additional_sensors = [] :=
  ⟨rfl, rfl, rfl, rfl, rfl, rfl⟩

/-- C8: for every successfully constructed sensor, the generic capability
projections agree with the kind-specific accessors and the generic `unit`
is the kind's `as_str` of the stored unit, whose labels are "Celsius",
"Fahrenheit", "Percent" and "ppm". -/
theorem sensor_capability_agrees
    (d : String) (ts : Int) (v : Rat) (now : Int)
    (tu : TemperatureUnit) (hu : HumidityUnit) (cu : CO2Unit) :
    (∀ s, TemperatureSensor.new d ts v tu now = .ok s →
      Sensor.temperature_device_id s = s.device_id ∧
      Sensor.temperature_timestamp s = s.timestamp ∧
      Sensor.temperature_value s = s.value ∧
      Sensor.temperature_unit s = s.unit.as_str) ∧
    (∀ s, HumiditySensor.new d ts v hu now = .ok s →
      Sensor.humidity_device_id s = s.device_id ∧
      Sensor.humidity_timestamp s = s.timestamp ∧
      Sensor.humidity_value s = s.value ∧
      Sensor.humidity_unit s = s.unit.as_str) ∧
    (∀ s, CO2Sensor.new d ts v cu now = .ok s →
      Sensor.co2_device_id s = s.device_id ∧
      Sensor.co2_timestamp s = s.timestamp ∧
      Sensor.co2_value s = s.value ∧
      Sensor.co2_unit s = s.unit.as_str) ∧
    TemperatureUnit.as_str .Celsius = "Celsius" ∧
    TemperatureUnit.as_str .Fahrenheit = "Fahrenheit" ∧
    HumidityUnit.as_str .Percent = "Percent" ∧
    CO2Unit.as_str .Ppm = "ppm" :=
  ⟨fun _ _ => ⟨rfl, rfl, rfl, rfl⟩, fun _ _ => ⟨rfl, rfl, rfl, rfl⟩,
   fun _ _ => ⟨rfl, rfl, rfl, rfl⟩, rfl, rfl, rfl, rfl⟩

/-- C8 witness: the capability projections evaluated on a concrete
successfully constructed temperature sensor. -/
theorem sensor_capability_agrees_witness :
    Sensor.temperature_device_id (TemperatureSensor.mk "x" 0 25 .Celsius) =
      (TemperatureSensor.mk "x" 0 25 .Celsius).device_id ∧
    Sensor.temperature_timestamp (TemperatureSensor.mk "x" 0 25 .Celsius) =
      (TemperatureSensor.mk "x" 0 25 .Celsius).timestamp ∧
    Sensor.temperature_value (TemperatureSensor.mk "x" 0 25 .Celsius) =
      (TemperatureSensor.mk "x" 0 25 .Celsius).value ∧
    Sensor.temperature_unit (TemperatureSensor.mk "x" 0 25 .Celsius) =
      (TemperatureSensor.mk "x" 0 25 .Celsius).unit.as_str :=
  (sensor_capability_agrees "x" 0 25 0 .Celsius .Percent .Ppm).1
    ⟨"x", 0, 25, .Celsius⟩ (by rfl)

/-- C9: for every vocabulary member of every sensor kind, parsing the
canonical display label recovers the member exactly. -/
theorem unit_label_parse_roundtrip :
    (∀ u : TemperatureUnit, TemperatureUnit.try_from u.as_str = .ok u) ∧
    (∀ u : HumidityUnit, HumidityUnit.try_from u.as_str = .ok u) ∧
    (∀ u : CO2Unit, CO2Unit.try_from u.as_str = .ok u) := by
  refine ⟨?_, ?_, ?_⟩ <;> intro u <;> cases u <;> rfl

/-- The measurement conversions of `models.rs` compose to the identity. -/
theorem measurement_conversion_roundtrip (m : SensorMeasurement) :
    SensorMeasurement.from_doc (DocSensorMeasurement.from_domain m) = m := rfl

/-- The key-value conversion of the additional-sensors map composes to the
identity. -/
theorem additional_sensors_conversion_roundtrip
    (l : List (String × SensorMeasurement)) :
    (l.map fun p => (p.1, DocSensorMeasurement.from_domain p.2)).map
      (fun p => (p.1, SensorMeasurement.from_doc p.2)) = l := by
  induction l with
  | nil => rfl
  | cons p rest ih =>
      obtain ⟨a, b⟩ := p
      simp [ih, measurement_conversion_roundtrip]

/-- The optional-slot conversion of `models.rs` composes to the identity. -/
theorem option_measurement_conversion_roundtrip (o : Option SensorMeasurement) :
    (o.map DocSensorMeasurement.from_domain).map SensorMeasurement.from_doc = o := by
  cases o <;> rfl

/-- C10: converting an aggregate record to a persistence document and back
preserves the device id, the timestamp, the three built-in slots and every
entry of the additional-sensors map. -/
theorem document_conversion_roundtrip (r : SensorData) :
    (SensorData.from_document (SensorDataDocument.from_data r)).device_id = r.device_id ∧
    (SensorData.from_document (SensorDataDocument.from_data r)).timestamp = r.timestamp ∧
    (SensorData.from_document (SensorDataDocument.from_data r)).temperature = r.temperature ∧
    (SensorData.from_document (SensorDataDocument.from_data r)).humidity = r.humidity ∧
    (SensorData.from_document (SensorDataDocument.from_data r)).co2 = r.co2 ∧
    (SensorData.from_document (SensorDataDocument.from_data r)).additional_sensors =
      r.additional_sensors ∧
    (∀ k, mapLookup k
      ((SensorData.from_document (SensorDataDocument.from_data r)).additional_sensors) =
      mapLookup k r.additional_sensors) := by
  have hlist := additional_sensors_conversion_roundtrip r.additional_sensors
  refine ⟨rfl, rfl, ?_, ?_, ?_, ?_, ?_⟩
  · exact option_measurement_conversion_roundtrip r.temperature
  · exact option_measurement_conversion_roundtrip r.humidity
  · exact option_measurement_conversion_roundtrip r.co2
  · exact hlist
  · intro k
    simp only [SensorData.from_document, SensorDataDocument.from_data]
    rw [hlist]
